import Mathlib

/-!
# The lead-search page controller (`script.js`)

A shallow embedding of the controller installed by the `DOMContentLoaded` handler of
`script.js`, followed by theorems about it.

Modelling conventions.

* JavaScript strings are Lean strings (sequences of Unicode scalar values); strings holding
  unpaired surrogates are outside the model.
* A JavaScript number is represented by the text `Number::toString` gives it, which is all the
  script can observe of a number (truthiness, string conversion, copying).
* The page is a record of the DOM properties the script reads or writes.  The `hidden` fields say
  whether the class `hidden` is in the element's class list.
* The table body is the list of its `tr` children, each described by the markup written into it.
* `executeSearch` is asynchronous; the result of the single `fetch` it awaits is an argument, and
  everything the function does to the outside world is returned as a list of effects.
* A JavaScript exception is an explicit `Completion.throw`.
-/

namespace LeadSearch

/-! ## JavaScript values -/

/-- The values the script handles: what `JSON.parse` can return, and `undefined`. The argument of
`num` is the decimal text of the number. The members of an object are listed in source order; a
later member with the same key replaces an earlier one. -/
inductive JSValue where
  | undefined
  | null
  | bool (b : Bool)
  | num (text : String)
  | str (s : String)
  | arr (items : List JSValue)
  | obj (members : List (String × JSValue))

namespace JSValue

/-- ToBoolean. -/
def truthy : JSValue → Bool
  | undefined => false
  | null => false
  | bool b => b
  | num t => !(t == "0" || t == "NaN")
  | str s => !(s == "")
  | arr _ => true
  | obj _ => true

/-- The operator `a || b`. -/
def orElse (a b : JSValue) : JSValue :=
  if a.truthy then a else b

/-- `Array.isArray`. -/
def isArray : JSValue → Bool
  | arr _ => true
  | _ => false

/-- Own property `k` of an object with the given members, if there is one. -/
def lookup (k : String) : List (String × JSValue) → Option JSValue
  | [] => none
  | (k', v) :: rest =>
    match lookup k rest with
    | some w => some w
    | none => if k' = k then some v else none

/-- The property read `v.k`, for a name `k` that is neither an array index nor defined by a
built-in prototype (every name the script reads is such). `none` is the TypeError raised when `v`
is `undefined` or `null`. -/
def getProp (v : JSValue) (k : String) : Option JSValue :=
  match v with
  | undefined => none
  | null => none
  | obj members => some ((lookup k members).getD undefined)
  | _ => some undefined

/-- The optional property read `v?.k`, for the same names as `getProp`. -/
def optProp (v : JSValue) (k : String) : JSValue :=
  match v with
  | obj members => (lookup k members).getD undefined
  | _ => undefined

/-- The optional element read `v?.[0]`. For a string it is the first character (exact when that
character lies in the Basic Multilingual Plane). -/
def optIndex0 (v : JSValue) : JSValue :=
  match v with
  | arr (x :: _) => x
  | str s =>
    match s.data with
    | c :: _ => str ⟨[c]⟩
    | [] => undefined
  | obj members => (lookup "0" members).getD undefined
  | _ => undefined

/-- The text `Array.prototype.join` puts in for an element with string conversion `text`:
`undefined` and `null` give the empty string. -/
def joinText (x : JSValue) (text : String) : String :=
  match x with
  | undefined => ""
  | null => ""
  | _ => text

mutual
/-- ToString. `none` is the TypeError raised for an object whose own `toString` member hides
`Object.prototype.toString` (a parsed member is never callable). -/
def toStr : JSValue → Option String
  | undefined => some "undefined"
  | null => some "null"
  | bool b => some (if b then "true" else "false")
  | num t => some t
  | str s => some s
  | arr items => joinElems "," items
  | obj members =>
    match lookup "toString" members with
    | some _ => none
    | none => some "[object Object]"
termination_by structural v => v
/-- `Array.prototype.join` with separator `sep`: the element texts, separated by `sep`. -/
def joinElems (sep : String) : List JSValue → Option String
  | [] => some ""
  | x :: rest =>
    match toStr x, joinElems sep rest with
    | some a, some b =>
      match rest with
      | [] => some (joinText x a)
      | _ :: _ => some (joinText x a ++ sep ++ b)
    | _, _ => none
termination_by structural xs => xs
end

end JSValue

open JSValue

/-! ## Strings -/

/-- WhiteSpace and LineTerminator code points, the characters `String.prototype.trim` strips. -/
def isWhiteSpace (c : Char) : Bool :=
  let n := c.toNat
  n == 0x09 || n == 0x0A || n == 0x0B || n == 0x0C || n == 0x0D || n == 0x20 || n == 0xA0 ||
  n == 0x1680 || (0x2000 ≤ n && n ≤ 0x200A) || n == 0x2028 || n == 0x2029 || n == 0x202F ||
  n == 0x205F || n == 0x3000 || n == 0xFEFF

/-- `String.prototype.trim`. -/
def trim (s : String) : String :=
  ⟨((s.data.dropWhile isWhiteSpace).reverse.dropWhile isWhiteSpace).reverse⟩

/-- `w.replace(/^https?:\/\//, '')`: one leading `https://` or `http://` is removed. -/
def stripScheme (w : String) : String :=
  if "https://".data.isPrefixOf w.data then ⟨w.data.drop 8⟩
  else if "http://".data.isPrefixOf w.data then ⟨w.data.drop 7⟩
  else w

/-- Lower-case hexadecimal digit. -/
def hexDigit (n : Nat) : Char :=
  if n < 10 then Char.ofNat (48 + n) else Char.ofNat (87 + n)

/-- QuoteJSONString for one character. -/
def quoteJSONChar (c : Char) : List Char :=
  if c = '\x08' then ['\\', 'b']
  else if c = '\t' then ['\\', 't']
  else if c = '\n' then ['\\', 'n']
  else if c = '\x0c' then ['\\', 'f']
  else if c = '\r' then ['\\', 'r']
  else if c = '"' then ['\\', '"']
  else if c = '\\' then ['\\', '\\']
  else if c.toNat < 0x20 then ['\\', 'u', '0', '0', hexDigit (c.toNat / 16), hexDigit (c.toNat % 16)]
  else [c]

/-- QuoteJSONString. -/
def quoteJSONString (s : String) : String :=
  ⟨'"' :: (s.data.flatMap quoteJSONChar ++ ['"'])⟩

/-- `JSON.stringify(v)` of an object literal with one member whose value is a string:
the member key and the value are both quoted by QuoteJSONString. -/
def JSON_stringify_member (key value : String) : String :=
  "\x7b" ++ quoteJSONString key ++ ":" ++ quoteJSONString value ++ "\x7d"

/-! ## Records, page state and effects -/

/-- The object built for each listing by the `map` callback of `executeSearch`. The fields
`Endereco` and `QuantidadeDeAvaliacoes` are the properties `Endereço` and
`Quantidade de Avaliações` of the source. -/
structure Record where
  Nome : JSValue
  Telefone : JSValue
  Categorias : JSValue
  Endereco : JSValue
  Website : JSValue
  Cidade : JSValue
  Estado : JSValue
  CEP : JSValue
  Rating : JSValue
  QuantidadeDeAvaliacoes : JSValue

/-- A `tr` child of the table body, given by the markup of its content. -/
structure Row where
  innerHTML : String

/-- The variables of the handler closure and the DOM properties the script touches. -/
structure State where
  searchResultsData : List Record
  placeholderIndex : Nat
  searchQueryValue : String
  searchQueryPlaceholder : String
  searchStatus : String
  tableBody : List Row
  exportButtonDisabled : Bool
  resultsSectionHidden : Bool
  searchButtonDisabled : Bool
  searchButtonTextHidden : Bool
  loadingSpinnerHidden : Bool

/-- The arguments of a `fetch` call. -/
structure Request where
  url : String
  method : String
  headers : List (String × String)
  body : String

/-- The response a `fetch` call resolves to. `json` is what `response.json()` resolves to, `none`
when it rejects because the body is not JSON. -/
structure Response where
  ok : Bool
  status : Nat
  statusText : String
  json : Option JSValue

/-- How the awaited `fetch` settles. -/
inductive FetchOutcome where
  | rejected
  | resolved (response : Response)

/-- A thrown value: an `Error` the script builds itself, or an error raised by the runtime
(a rejected `fetch`, a rejected `response.json()`, a TypeError). -/
inductive Thrown where
  | error (message : String)
  | runtime

/-- The second argument of a `console.error` call. -/
inductive Logged where
  | thrown (e : Thrown)
  | value (v : JSValue)

/-- A worksheet as handed to the spreadsheet library: the row objects given to
`XLSX.utils.json_to_sheet`, each a list of members in insertion order, and the `wch` values of
the `!cols` entry. -/
structure Worksheet where
  rows : List (List (String × JSValue))
  cols : List Nat

/-- A workbook: its named sheets, in the order they were appended. -/
structure Workbook where
  sheets : List (String × Worksheet)

/-- What the script does to the world outside the page. -/
inductive Effect where
  | fetch (request : Request)
  | consoleError (label : String) (detail : Logged)
  | alert (message : String)
  | writeFile (workbook : Workbook) (filename : String)

/-- The requests among a list of effects. -/
def requestsOf : List Effect → List Request
  | [] => []
  | Effect.fetch r :: rest => r :: requestsOf rest
  | _ :: rest => requestsOf rest

/-- The downloads among a list of effects. -/
def downloadsOf : List Effect → List (Workbook × String)
  | [] => []
  | Effect.writeFile wb name :: rest => (wb, name) :: downloadsOf rest
  | _ :: rest => downloadsOf rest

/-- The blocking notices among a list of effects. -/
def alertsOf : List Effect → List String
  | [] => []
  | Effect.alert m :: rest => m :: alertsOf rest
  | _ :: rest => alertsOf rest

/-- The outcome of running statements that may throw, with the state reached. -/
inductive Completion where
  | normal (s : State)
  | throw (e : Thrown) (s : State)

/-! ## The script -/

def WEBHOOK_URL : String := "https://webhook.ia-tess.com.br/webhook/scraping-google-maps"

def placeholders : List String :=
  ["Ex: Oficinas em Fernandópolis, SP",
   "Ex: Restaurantes em São Paulo, SP",
   "Ex: Advogados no Rio de Janeiro, RJ",
   "Ex: Padarias em Belo Horizonte, MG",
   "Ex: Clínicas veterinárias em Curitiba, PR"]

/-- One tick of the interval timer. -/
def cyclePlaceholders (s : State) : State :=
  let i := (s.placeholderIndex + 1) % placeholders.length
  { s with placeholderIndex := i, searchQueryPlaceholder := placeholders.getD i "undefined" }

def toggleLoading (s : State) (isLoading : Bool) : State :=
  let s := { s with searchButtonDisabled := isLoading }
  if isLoading then
    { s with
      searchButtonTextHidden := true
      loadingSpinnerHidden := false
      searchStatus := "Buscando e processando dados... Isso pode levar alguns minutos." }
  else
    { s with searchButtonTextHidden := false, loadingSpinnerHidden := true }

/-- The row that `populateTable` writes for an empty result. -/
def noResultsRow : Row :=
  ⟨"<td colspan=\"5\" style=\"text-align: center; padding: 2rem;\">Nenhum resultado encontrado.</td>"⟩

/-- The row that the `catch` block of `executeSearch` writes. -/
def errorRow : Row :=
  ⟨"<td colspan=\"5\" style=\"text-align: center; padding: 2rem; color: #ef4444;\">Falha na comunicação com o servidor.</td>"⟩

/-- The interpolation of `v || '-'` into a template. -/
def cellText (v : JSValue) : Option String :=
  (v.orElse (str "-")).toStr

/-- The `href` written for a website string. -/
def websiteHref (w : String) : String :=
  "http://" ++ stripScheme w

/-- The interpolation of the website cell. A truthy value that is not a string has no callable
`replace`, so the call throws. -/
def websiteCell (w : JSValue) : Option String :=
  if w.truthy then
    match w with
    | str s =>
      some ("<a href=\"" ++ websiteHref s ++ "\" target=\"_blank\" rel=\"noopener noreferrer\">"
        ++ s ++ "</a>")
    | _ => none
  else some "-"

/-- The template assigned to `row.innerHTML`; `none` when evaluating it throws. -/
def rowMarkup (item : Record) : Option String :=
  match cellText item.Nome, cellText item.Telefone, cellText item.Categorias,
        cellText item.Endereco, websiteCell item.Website with
  | some nome, some telefone, some categorias, some endereco, some website =>
    some ("\n                <td>" ++ nome ++ "</td>\n                <td>" ++ telefone
      ++ "</td>\n                <td>" ++ categorias ++ "</td>\n                <td>" ++ endereco
      ++ "</td>\n                <td>" ++ website ++ "</td>\n            ")
  | _, _, _, _, _ => none

/-- The `forEach` loop of `populateTable`. -/
def appendRows (s : State) : List Record → Completion
  | [] => Completion.normal s
  | item :: rest =>
    match rowMarkup item with
    | none => Completion.throw Thrown.runtime s
    | some html => appendRows { s with tableBody := s.tableBody ++ [⟨html⟩] } rest

def populateTable (s : State) (data : List Record) : Completion :=
  let s := { s with tableBody := [] }
  if data.length = 0 then
    Completion.normal
      { s with
        tableBody := [noResultsRow]
        searchStatus := "A busca foi concluída, mas nenhum dado foi retornado." }
  else
    match appendRows s data with
    | Completion.throw e s => Completion.throw e s
    | Completion.normal s =>
      Completion.normal
        { s with
          resultsSectionHidden := false
          exportButtonDisabled := false
          searchStatus := "Busca concluída! " ++ toString data.length ++ " resultados encontrados." }

/-- The `map` callback of `executeSearch`; `none` when it throws. Once `item.name` has been
read, `item` is neither `undefined` nor `null`, so the later plain reads cannot throw and agree
with `optProp`. -/
def toRecord (item : JSValue) : Option Record :=
  match item.getProp "name" with
  | none => none
  | some name =>
    let telefone :=
      (((item.optProp "emails_and_contacts").optProp "phone_numbers").optIndex0).orElse null
    let subtypes := item.optProp "subtypes"
    let categorias : Option JSValue :=
      match subtypes with
      | arr entries => (joinElems ", " entries).map str
      | _ => some (str "")
    match categorias with
    | none => none
    | some categorias =>
      some
        { Nome := name
          Telefone := telefone
          Categorias := categorias
          Endereco := item.optProp "address"
          Website := item.optProp "website"
          Cidade := item.optProp "city"
          Estado := item.optProp "state"
          CEP := item.optProp "zipcode"
          Rating := item.optProp "rating"
          QuantidadeDeAvaliacoes := item.optProp "review_count" }

/-- `result.map(...)`; `none` when the callback throws on some element. -/
def mapRecords : List JSValue → Option (List Record)
  | [] => some []
  | item :: rest =>
    match toRecord item, mapRecords rest with
    | some r, some rs => some (r :: rs)
    | _, _ => none

/-- The request `executeSearch` sends for a query. -/
def searchRequest (query : String) : Request :=
  { url := WEBHOOK_URL
    method := "POST"
    headers := [("Content-Type", "application/json")]
    body := JSON_stringify_member "termo_de_busca" query }

/-- The `try` block of `executeSearch` after the `fetch` call has been issued. -/
def tryBlock (s : State) : FetchOutcome → Completion × List Effect
  | FetchOutcome.rejected => (Completion.throw Thrown.runtime s, [])
  | FetchOutcome.resolved response =>
    if !response.ok then
      (Completion.throw
        (Thrown.error ("Erro na rede: " ++ response.statusText ++ " (código: "
          ++ toString response.status ++ ")")) s, [])
    else
      match response.json with
      | none => (Completion.throw Thrown.runtime s, [])
      | some result =>
        match result with
        | arr items =>
          match mapRecords items with
          | none => (Completion.throw Thrown.runtime s, [])
          | some dataToDisplay =>
            (populateTable { s with searchResultsData := dataToDisplay } dataToDisplay, [])
        | _ =>
          (populateTable { s with searchResultsData := [] } [],
            [Effect.consoleError "A resposta do Webhook não é um array:" (Logged.value result)])

/-- The `catch` block of `executeSearch`. -/
def catchBlock (e : Thrown) (s : State) : State × List Effect :=
  ({ s with
     searchStatus := "Ocorreu um erro ao buscar os dados. Tente novamente."
     tableBody := [errorRow] },
   [Effect.consoleError "Erro ao chamar o webhook:" (Logged.thrown e)])

/-- The function `executeSearch`, run to completion with the given outcome of its request. -/
def executeSearch (s : State) (outcome : FetchOutcome) : State × List Effect :=
  let query := trim s.searchQueryValue
  if query = "" then
    ({ s with searchStatus := "Por favor, insira um termo de busca." }, [])
  else
    let s := toggleLoading s true
    let s := { s with tableBody := [], exportButtonDisabled := true, resultsSectionHidden := true }
    let request := Effect.fetch (searchRequest query)
    match tryBlock s outcome with
    | (Completion.normal s, log) => (toggleLoading s false, request :: log)
    | (Completion.throw e s, log) =>
      let (s, log2) := catchBlock e s
      (toggleLoading s false, request :: (log ++ log2))

/-- The row object `exportToExcel` builds for a record. -/
def exportRow (item : Record) : List (String × JSValue) :=
  [("Nome da Empresa", item.Nome),
   ("Telefone", item.Telefone),
   ("Categorias", item.Categorias),
   ("Endereço", item.Endereco),
   ("Cidade", item.Cidade),
   ("Estado", item.Estado),
   ("CEP", item.CEP),
   ("Website", item.Website),
   ("Rating", item.Rating),
   ("Quantidade de Avaliações", item.QuantidadeDeAvaliacoes)]

def exportToExcel (s : State) : State × List Effect :=
  if s.searchResultsData.length = 0 then
    (s, [Effect.alert "Não há dados para exportar."])
  else
    let dataToExport := s.searchResultsData.map exportRow
    let worksheet : Worksheet :=
      { rows := dataToExport, cols := [35, 20, 40, 45, 25, 10, 12, 30, 10, 25] }
    let workbook : Workbook := { sheets := [("Empresas", worksheet)] }
    (s, [Effect.writeFile workbook "busca_leads.xlsx"])


/-! ## Auxiliary definitions for the statements -/

/-- The state in which `executeSearch` issues its request. -/
def searching (s : State) : State :=
  { toggleLoading s true with
    tableBody := [], exportButtonDisabled := true, resultsSectionHidden := true }

/-- The request fails: the `fetch` rejects, the response has a non-success status, or its body
does not parse as JSON. -/
def FetchOutcome.failed : FetchOutcome → Bool
  | FetchOutcome.rejected => true
  | FetchOutcome.resolved response => !response.ok || response.json.isNone

/-- A page before any search, with a query typed into the search field. -/
def freshState (query : String) : State :=
  { searchResultsData := []
    placeholderIndex := 0
    searchQueryValue := query
    searchQueryPlaceholder := ""
    searchStatus := ""
    tableBody := []
    exportButtonDisabled := true
    resultsSectionHidden := true
    searchButtonDisabled := false
    searchButtonTextHidden := false
    loadingSpinnerHidden := true }

/-- A successful response with the given parsed body. -/
def okResponse (body : JSValue) : FetchOutcome :=
  FetchOutcome.resolved { ok := true, status := 200, statusText := "OK", json := some body }

/-- A sample listing. -/
def sampleListing : JSValue :=
  obj [("name", str "Oficina Central"),
       ("address", str "Rua A, 10"),
       ("website", str "https://example.com"),
       ("city", str "Fernandópolis"),
       ("state", str "SP"),
       ("zipcode", str "15600-000"),
       ("rating", num "4.5"),
       ("review_count", num "12"),
       ("subtypes", arr [str "Oficina", str "Auto elétrica"]),
       ("emails_and_contacts", obj [("phone_numbers", arr [str "+55 17 3442-0000"])])]

/-- The page after a successful search that returned the sample listing. -/
def heldState : State :=
  (executeSearch (freshState "oficinas") (okResponse (arr [sampleListing]))).1


/-- A text value. -/
def isText : JSValue → Bool
  | str _ => true
  | _ => false

/-- A missing, null or text value. -/
def isOptText : JSValue → Bool
  | undefined => true
  | null => true
  | str _ => true
  | _ => false

/-- A missing or null value, or a sequence of texts. -/
def isOptTextList : JSValue → Bool
  | undefined => true
  | null => true
  | arr entries => entries.all isText
  | _ => false

/-- A listing object in the shape the endpoint is documented to return: an object whose `name`,
`address` and `website`, when present, are texts, whose `subtypes`, when present, is a sequence
of texts, and whose `emails_and_contacts`, when present, is an object whose `phone_numbers`, when
present, is a sequence of texts. The other members are not constrained. -/
def isListing (item : JSValue) : Bool :=
  match item with
  | obj _ =>
    isOptText (item.optProp "name") && isOptText (item.optProp "address") &&
    isOptText (item.optProp "website") && isOptTextList (item.optProp "subtypes") &&
    (match item.optProp "emails_and_contacts" with
     | undefined => true
     | null => true
     | obj contacts => isOptTextList ((obj contacts).optProp "phone_numbers")
     | _ => false)
  | _ => false

/-- The phone list of a listing: the entries of `emails_and_contacts.phone_numbers` when that is
a sequence, no entries otherwise. -/
def phoneNumbers (listing : JSValue) : List JSValue :=
  match (listing.optProp "emails_and_contacts").optProp "phone_numbers" with
  | arr entries => entries
  | _ => []

/-- The text of a text value. -/
def textOf : JSValue → String
  | str t => t
  | _ => ""

/-- The categories of a listing: its `subtypes` texts joined with a comma and a space when
`subtypes` is a sequence, the empty text otherwise. -/
def categoriesOf (listing : JSValue) : String :=
  match listing.optProp "subtypes" with
  | arr entries => ", ".intercalate (entries.map textOf)
  | _ => ""

/-- The record claim C3 assigns to a listing, as the claim is stated: the phone is the first
entry of the phone list when there is one, and absent (null) otherwise. -/
def statedRecord (listing : JSValue) : Record :=
  { Nome := listing.optProp "name"
    Telefone :=
      match phoneNumbers listing with
      | first :: _ => first
      | [] => null
    Categorias := str (categoriesOf listing)
    Endereco := listing.optProp "address"
    Website := listing.optProp "website"
    Cidade := listing.optProp "city"
    Estado := listing.optProp "state"
    CEP := listing.optProp "zipcode"
    Rating := listing.optProp "rating"
    QuantidadeDeAvaliacoes := listing.optProp "review_count" }

/-- The record of a listing with the phone rule amended: the phone is the first entry of the
phone list when there is one and it is truthy (for a text: not empty), and null otherwise. -/
def derivedRecord (listing : JSValue) : Record :=
  { statedRecord listing with
    Telefone :=
      match phoneNumbers listing with
      | first :: _ => if first.truthy then first else null
      | [] => null }

/-- A listing whose phone list holds one empty text. -/
def blankPhoneListing : JSValue :=
  obj [("name", str "Padaria Sol"),
       ("emails_and_contacts", obj [("phone_numbers", arr [str ""])])]

/-- The table body is the rendering of the held records: one row per record, in order, each
holding the markup `populateTable` writes for that record. -/
def tableShowsRecords (s : State) : Prop :=
  s.tableBody.map (fun row => some row.innerHTML) = s.searchResultsData.map rowMarkup

/-- The operations on the page: a search with the given text in the search field and the given
outcome of its request, a click on the export control, a tick of the placeholder timer. -/
inductive Op where
  | search (term : String) (outcome : FetchOutcome)
  | exportData
  | tick

/-- One operation, run to completion. -/
def step (s : State) : Op → State
  | Op.search term outcome => (executeSearch { s with searchQueryValue := term } outcome).1
  | Op.exportData => (exportToExcel s).1
  | Op.tick => cyclePlaceholders s

/-- A sequence of operations, none overlapping another. -/
def run (s : State) (ops : List Op) : State :=
  ops.foldl step s

/-- Whenever the export control is enabled, some record is held and the table shows the held
records. -/
def exportInvariant (s : State) : Prop :=
  s.exportButtonDisabled = false → s.searchResultsData ≠ [] ∧ tableShowsRecords s
/-- A character an HTML tokenizer copies unchanged into a double-quoted attribute value: not the
closing quote, and none of the characters the parser rewrites (the ampersand of a character
reference, NUL, and the carriage return of newline normalisation). -/
def attrSafe (c : Char) : Bool :=
  !(c == '"' || c == '&' || c == '\x00' || c == '\r')

/-- The value an HTML tokenizer reads for a double-quoted attribute, from the text that follows
the opening quote: the characters up to the next double quote. `none` when there is no closing
quote, or when the value holds an ampersand, a NUL or a carriage return, whose rewriting by the
parser is not modelled. -/
def quotedAttrValue : List Char → Option (List Char)
  | [] => none
  | c :: rest =>
    if c = '"' then some []
    else if attrSafe c then (quotedAttrValue rest).map (fun value => c :: value)
    else none

/-- The `href` attribute of the link that the markup of a website cell starts with, as a browser
reads it when the markup is assigned to `innerHTML`. -/
def renderedHref (cell : String) : Option String :=
  if "<a href=\"".data.isPrefixOf cell.data then
    (quotedAttrValue (cell.data.drop 9)).map String.mk
  else none

/-- The state a completion carries. -/
def Completion.state : Completion → State
  | Completion.normal s => s
  | Completion.throw _ s => s

/-- A record whose website holds a double quote. -/
def quotedWebsiteRecord : Record :=
  { derivedRecord sampleListing with Website := str "a.com/?q=\"1\"" }

/-! ## Lemmas on the script -/

theorem trim_eq_empty_of_all (v : String) (h : v.data.all isWhiteSpace = true) : trim v = "" := by
  have h1 : v.data.dropWhile isWhiteSpace = [] := by
    rw [List.dropWhile_eq_nil_iff]
    simpa [List.all_eq_true] using h
  simp [trim, h1]

theorem executeSearch_cases (s : State) (o : FetchOutcome) (h : trim s.searchQueryValue ≠ "") :
    (∃ s1 log, tryBlock (searching s) o = (Completion.normal s1, log) ∧
      executeSearch s o =
        (toggleLoading s1 false, Effect.fetch (searchRequest (trim s.searchQueryValue)) :: log)) ∨
    (∃ e s1 log, tryBlock (searching s) o = (Completion.throw e s1, log) ∧
      executeSearch s o =
        (toggleLoading (catchBlock e s1).1 false,
          Effect.fetch (searchRequest (trim s.searchQueryValue)) ::
            (log ++ (catchBlock e s1).2))) := by
  rcases hc : tryBlock (searching s) o with ⟨c, log⟩
  cases c with
  | normal s1 =>
    left
    refine ⟨s1, log, rfl, ?_⟩
    simp only [executeSearch, h, if_false]
    simp only [searching] at hc
    rw [hc]
  | throw e s1 =>
    right
    refine ⟨e, s1, log, rfl, ?_⟩
    simp only [executeSearch, h, if_false]
    simp only [searching] at hc
    rw [hc]

theorem appendRows_cases (data : List Record) : ∀ s : State,
    ∃ rows : List Row,
      (appendRows s data = Completion.normal { s with tableBody := s.tableBody ++ rows } ∧
        rows.map (fun r => some r.innerHTML) = data.map rowMarkup) ∨
      (∃ e, appendRows s data = Completion.throw e { s with tableBody := s.tableBody ++ rows }) := by
  induction data with
  | nil => intro s; exact ⟨[], Or.inl ⟨by simp [appendRows], rfl⟩⟩
  | cons item rest ih =>
    intro s
    cases hm : rowMarkup item with
    | none => exact ⟨[], Or.inr ⟨Thrown.runtime, by simp [appendRows, hm]⟩⟩
    | some html =>
      obtain ⟨rows, hrows⟩ := ih { s with tableBody := s.tableBody ++ [⟨html⟩] }
      refine ⟨⟨html⟩ :: rows, ?_⟩
      rcases hrows with ⟨h1, h2⟩ | ⟨e, h1⟩
      · left
        refine ⟨?_, ?_⟩
        · simp [appendRows, hm, h1]
        · simp [hm, h2]
      · right
        exact ⟨e, by simp [appendRows, hm, h1]⟩

theorem populateTable_nil (s : State) :
    populateTable s [] = Completion.normal
      { s with
        tableBody := [noResultsRow]
        searchStatus := "A busca foi concluída, mas nenhum dado foi retornado." } := by
  simp [populateTable]

theorem populateTable_cases (s : State) (data : List Record) (hd : data ≠ []) :
    ∃ rows : List Row,
      (populateTable s data = Completion.normal
          { s with
            tableBody := rows
            resultsSectionHidden := false
            exportButtonDisabled := false
            searchStatus :=
              "Busca concluída! " ++ toString data.length ++ " resultados encontrados." } ∧
        rows.map (fun r => some r.innerHTML) = data.map rowMarkup) ∨
      (∃ e, populateTable s data = Completion.throw e { s with tableBody := rows }) := by
  obtain ⟨rows, h⟩ := appendRows_cases data { s with tableBody := [] }
  have hl : data.length ≠ 0 := by simpa using hd
  refine ⟨rows, ?_⟩
  rcases h with ⟨h1, h2⟩ | ⟨e, h1⟩
  · left
    refine ⟨?_, h2⟩
    simp only [populateTable, hl, if_false, h1]
    simp
  · right
    refine ⟨e, ?_⟩
    simp only [populateTable, hl, if_false, h1]
    simp

theorem tryBlock_failed (s : State) (o : FetchOutcome) (h : o.failed = true) :
    ∃ e, tryBlock s o = (Completion.throw e s, []) := by
  cases o with
  | rejected => exact ⟨Thrown.runtime, rfl⟩
  | resolved r =>
    cases hok : r.ok with
    | false =>
      exact ⟨Thrown.error ("Erro na rede: " ++ r.statusText ++ " (código: "
        ++ toString r.status ++ ")"), by simp [tryBlock, hok]⟩
    | true =>
      have hj : r.json = none := by simpa [FetchOutcome.failed, hok] using h
      exact ⟨Thrown.runtime, by simp [tryBlock, hok, hj]⟩

theorem tryBlock_not_array (s : State) (r : Response) (result : JSValue) (hok : r.ok = true)
    (hj : r.json = some result) (hr : result.isArray = false) :
    tryBlock s (FetchOutcome.resolved r) =
      (populateTable { s with searchResultsData := [] } [],
        [Effect.consoleError "A resposta do Webhook não é um array:" (Logged.value result)]) := by
  cases result <;> simp_all [tryBlock, isArray]

theorem tryBlock_array (s : State) (r : Response) (items : List JSValue) (hok : r.ok = true)
    (hj : r.json = some (arr items)) :
    tryBlock s (FetchOutcome.resolved r) =
      match mapRecords items with
      | none => (Completion.throw Thrown.runtime s, [])
      | some data => (populateTable { s with searchResultsData := data } data, []) := by
  simp [tryBlock, hok, hj]

theorem requestsOf_tryBlock (s : State) (o : FetchOutcome) : requestsOf (tryBlock s o).2 = [] := by
  unfold tryBlock
  split
  · rfl
  · split
    · rfl
    · split
      · rfl
      · split
        · split <;> rfl
        · rfl

theorem http_data : "http://".data = ['h', 't', 't', 'p', ':', '/', '/'] := rfl
theorem https_data : "https://".data = ['h', 't', 't', 'p', 's', ':', '/', '/'] := rfl

theorem stripScheme_of_bare (h : String) (h1 : "http://".data.isPrefixOf h.data = false)
    (h2 : "https://".data.isPrefixOf h.data = false) : stripScheme h = h := by
  simp [stripScheme, h1, h2]

theorem stripScheme_http (h : String) : stripScheme ("http://" ++ h) = h := by
  simp [stripScheme, String.data_append, http_data, https_data, List.isPrefixOf]

theorem stripScheme_https (h : String) : stripScheme ("https://" ++ h) = h := by
  simp [stripScheme, String.data_append, http_data, https_data, List.isPrefixOf]

theorem intercalate_go (sep : String) (entries : List String) : ∀ acc : String,
    String.intercalate.go acc sep entries = acc ++ String.intercalate.go "" sep entries := by
  induction entries with
  | nil => intro acc; simp [String.intercalate.go]
  | cons a rest ih =>
    intro acc
    simp only [String.intercalate.go]
    rw [ih (acc ++ sep ++ a), ih ("" ++ sep ++ a)]
    simp [String.append_assoc]

theorem intercalate_cons_cons (sep a b : String) (rest : List String) :
    sep.intercalate (a :: b :: rest) = a ++ sep ++ sep.intercalate (b :: rest) := by
  simp only [String.intercalate, String.intercalate.go]
  rw [intercalate_go sep rest (a ++ sep ++ b), intercalate_go sep rest b]
  simp [String.append_assoc]

theorem joinElems_texts (sep : String) (entries : List JSValue)
    (h : entries.all isText = true) :
    joinElems sep entries = some (sep.intercalate (entries.map textOf)) := by
  induction entries with
  | nil => simp [joinElems, String.intercalate]
  | cons x rest ih =>
    simp only [List.all_cons, Bool.and_eq_true] at h
    obtain ⟨hx, hrest⟩ := h
    cases x <;> simp [isText] at hx
    rename_i t
    cases rest with
    | nil => simp [joinElems, toStr, textOf, joinText, String.intercalate, String.intercalate.go]
    | cons y rest2 =>
      have ih2 := ih hrest
      rw [joinElems, ih2]
      simp only [List.map_cons, toStr, joinText]
      rw [intercalate_cons_cons]
      rfl

theorem cellText_of_isOptText (v : JSValue) (h : isOptText v = true) :
    ∃ t, cellText v = some t := by
  cases v <;> simp [isOptText] at h <;> simp [cellText, orElse, truthy, toStr]
  split <;> simp [toStr]

theorem websiteCell_of_isOptText (v : JSValue) (h : isOptText v = true) :
    ∃ t, websiteCell v = some t := by
  cases v <;> simp [isOptText] at h <;> simp [websiteCell, truthy]
  split <;> simp

theorem categorias_of_isOptTextList (item : JSValue)
    (hs : isOptTextList (item.optProp "subtypes") = true) :
    (match item.optProp "subtypes" with
      | arr entries => (joinElems ", " entries).map str
      | _ => some (str "")) = some (str (categoriesOf item)) := by
  unfold categoriesOf
  cases hsub : item.optProp "subtypes" <;> simp [hsub, isOptTextList] at hs ⊢
  rename_i entries
  rw [joinElems_texts ", " entries (by simpa [List.all_eq_true] using hs)]

theorem telefone_of_isOptTextList (phones : JSValue) (hp : isOptTextList phones = true) :
    (phones.optIndex0).orElse null =
      (match (match phones with
              | arr entries => entries
              | _ => []) with
       | first :: _ => if first.truthy then first else null
       | [] => null) := by
  cases phones <;> simp [isOptTextList] at hp <;> simp [optIndex0, orElse, truthy]
  rename_i entries
  cases entries with
  | nil => simp [optIndex0, orElse, truthy]
  | cons first rest => simp [optIndex0, orElse]

theorem toRecord_of_isListing (item : JSValue) (h : isListing item = true) :
    toRecord item = some (derivedRecord item) := by
  cases item <;> simp [isListing] at h
  rename_i ms
  obtain ⟨⟨⟨⟨hn, ha⟩, hw⟩, hs⟩, hc⟩ := h
  have hcat := categorias_of_isOptTextList (obj ms) hs
  have htel : (((obj ms).optProp "emails_and_contacts").optProp "phone_numbers").optIndex0.orElse
      null = (derivedRecord (obj ms)).Telefone := by
    simp only [derivedRecord, phoneNumbers]
    apply telefone_of_isOptTextList
    cases hec : (obj ms).optProp "emails_and_contacts" <;> simp [hec] at hc <;>
      simp [optProp, isOptTextList]
    simpa [optProp] using hc
  simp only [toRecord, getProp]
  rw [hcat]
  simp only [htel]
  rfl

theorem telefone_isOptText (item : JSValue) (h : isListing item = true) :
    isOptText (derivedRecord item).Telefone = true := by
  cases item <;> simp [isListing] at h
  rename_i ms
  obtain ⟨_, hc⟩ := h
  simp only [derivedRecord, phoneNumbers]
  cases hec : (obj ms).optProp "emails_and_contacts" <;> simp [hec] at hc <;>
    simp [optProp, isOptText]
  rename_i cs
  cases hp : (obj cs).optProp "phone_numbers" <;> simp [hp, isOptTextList] at hc <;>
    simp [optProp] at hp <;> simp [hp, isOptText]
  rename_i entries
  cases entries with
  | nil => simp [isOptText]
  | cons first rest =>
    have hf := hc first (by simp)
    cases first <;> simp [isText] at hf
    rename_i t
    by_cases htr : (str t).truthy = true <;> simp [htr, isOptText]

theorem rowMarkup_of_isListing (item : JSValue) (h : isListing item = true) :
    ∃ html, rowMarkup (derivedRecord item) = some html := by
  have ht := telefone_isOptText item h
  cases item <;> simp [isListing] at h
  rename_i ms
  obtain ⟨⟨⟨⟨hn, ha⟩, hw⟩, _⟩, _⟩ := h
  obtain ⟨c1, h1⟩ := cellText_of_isOptText ((obj ms).optProp "name") hn
  obtain ⟨c2, h2⟩ := cellText_of_isOptText _ ht
  obtain ⟨c3, h3⟩ := cellText_of_isOptText (str (categoriesOf (obj ms))) rfl
  obtain ⟨c4, h4⟩ := cellText_of_isOptText ((obj ms).optProp "address") ha
  obtain ⟨c5, h5⟩ := websiteCell_of_isOptText ((obj ms).optProp "website") hw
  have e1 : (derivedRecord (obj ms)).Nome = (obj ms).optProp "name" := rfl
  have e3 : (derivedRecord (obj ms)).Categorias = str (categoriesOf (obj ms)) := rfl
  have e4 : (derivedRecord (obj ms)).Endereco = (obj ms).optProp "address" := rfl
  have e5 : (derivedRecord (obj ms)).Website = (obj ms).optProp "website" := rfl
  simp only [rowMarkup, e1, e3, e4, e5, h1, h2, h3, h4, h5]
  exact ⟨_, rfl⟩

theorem mapRecords_of_isListing (items : List JSValue)
    (h : ∀ item ∈ items, isListing item = true) :
    mapRecords items = some (items.map derivedRecord) := by
  induction items with
  | nil => rfl
  | cons item rest ih =>
    have h1 := toRecord_of_isListing item (h item (by simp))
    have h2 := ih (fun x hx => h x (by simp [hx]))
    simp [mapRecords, h1, h2]

theorem appendRows_ne_throw (data : List Record)
    (h : ∀ item ∈ data, ∃ html, rowMarkup item = some html) :
    ∀ (s : State) (e : Thrown) (s1 : State), appendRows s data ≠ Completion.throw e s1 := by
  induction data with
  | nil => intro s e s1; simp [appendRows]
  | cons item rest ih =>
    intro s e s1
    obtain ⟨html, hm⟩ := h item (by simp)
    simp only [appendRows, hm]
    exact ih (fun x hx => h x (by simp [hx])) _ e s1

theorem populateTable_ne_throw (s : State) (data : List Record)
    (h : ∀ item ∈ data, ∃ html, rowMarkup item = some html) (e : Thrown) (s1 : State) :
    populateTable s data ≠ Completion.throw e s1 := by
  unfold populateTable
  simp only []
  split
  · simp
  · split
    · rename_i e2 s2 hthrow
      exact absurd hthrow (appendRows_ne_throw data h _ e2 s2)
    · simp

/-- The outcome of a search whose response parses to a sequence that maps to `data`. -/
theorem executeSearch_array (s : State) (r : Response) (items : List JSValue)
    (data : List Record) (hq : trim s.searchQueryValue ≠ "") (hok : r.ok = true)
    (hj : r.json = some (arr items)) (hm : mapRecords items = some data) :
    (∃ s1, populateTable { searching s with searchResultsData := data } data
        = Completion.normal s1 ∧
      (executeSearch s (FetchOutcome.resolved r)).1 = toggleLoading s1 false) ∨
    (∃ e s1, populateTable { searching s with searchResultsData := data } data
        = Completion.throw e s1 ∧
      (executeSearch s (FetchOutcome.resolved r)).1 = toggleLoading (catchBlock e s1).1 false) := by
  have ht := tryBlock_array (searching s) r items hok hj
  rw [hm] at ht
  simp only at ht
  rcases executeSearch_cases s _ hq with ⟨s1, log1, ht1, he⟩ | ⟨e, s1, log1, ht1, he⟩
  · left
    rw [ht] at ht1
    injection ht1 with h1 h2
    exact ⟨s1, h1, by rw [he]⟩
  · right
    rw [ht] at ht1
    injection ht1 with h1 h2
    exact ⟨e, s1, h1, by rw [he]⟩

/-- The outcome of a search whose response is a non-empty sequence of listings. -/
theorem executeSearch_listings (s : State) (r : Response) (items : List JSValue)
    (hq : trim s.searchQueryValue ≠ "") (hok : r.ok = true) (hj : r.json = some (arr items))
    (hl : ∀ item ∈ items, isListing item = true) (hn : items ≠ []) :
    ∃ rows : List Row,
      rows.map (fun row => some row.innerHTML) = (items.map derivedRecord).map rowMarkup ∧
      (executeSearch s (FetchOutcome.resolved r)).1 =
        toggleLoading
          { searching s with
            searchResultsData := items.map derivedRecord
            tableBody := rows
            resultsSectionHidden := false
            exportButtonDisabled := false
            searchStatus := "Busca concluída! " ++ toString (items.map derivedRecord).length
              ++ " resultados encontrados." } false := by
  have hm := mapRecords_of_isListing items hl
  have hrow : ∀ item ∈ items.map derivedRecord, ∃ html, rowMarkup item = some html := by
    intro item hi
    obtain ⟨x, hx, rfl⟩ := List.mem_map.1 hi
    exact rowMarkup_of_isListing x (hl x hx)
  have hd : items.map derivedRecord ≠ [] := by simpa using hn
  obtain ⟨rows, hp⟩ := populateTable_cases
    { searching s with searchResultsData := items.map derivedRecord } _ hd
  rcases hp with ⟨hp, hrows⟩ | ⟨e, hp⟩
  · refine ⟨rows, hrows, ?_⟩
    rcases executeSearch_array s r items _ hq hok hj hm with ⟨s1, h1, he⟩ | ⟨e, s1, h1, _⟩
    · rw [hp] at h1
      injection h1 with h1
      rw [he, ← h1]
    · exact absurd h1 (populateTable_ne_throw _ _ hrow e s1)
  · exact absurd hp (populateTable_ne_throw _ _ hrow e _)

theorem populateTable_invariant (s : State) (hs : s.exportButtonDisabled = true) :
    (∀ s1, populateTable s s.searchResultsData = Completion.normal s1 → exportInvariant s1) ∧
    (∀ e s1, populateTable s s.searchResultsData = Completion.throw e s1 →
      s1.exportButtonDisabled = true) := by
  cases hd : s.searchResultsData with
  | nil =>
    rw [populateTable_nil]
    constructor
    · intro s1 h1
      injection h1 with h1
      subst h1
      intro hf
      simp [hs] at hf
    · intro e s1 h1
      cases h1
  | cons item rest =>
    obtain ⟨rows, hp⟩ := populateTable_cases s (item :: rest) (by simp)
    rcases hp with ⟨hp, hrows⟩ | ⟨e0, hp⟩
    · rw [hp]
      constructor
      · intro s1 h1
        injection h1 with h1
        subst h1
        intro _
        exact ⟨by simp [hd], by simpa [tableShowsRecords, hd] using hrows⟩
      · intro e s1 h1
        cases h1
    · rw [hp]
      constructor
      · intro s1 h1
        cases h1
      · intro e s1 h1
        injection h1 with _ h1
        subst h1
        exact hs

theorem tryBlock_invariant (s : State) (o : FetchOutcome) (hs : s.exportButtonDisabled = true) :
    (∀ s1 log, tryBlock s o = (Completion.normal s1, log) → exportInvariant s1) ∧
    (∀ e s1 log, tryBlock s o = (Completion.throw e s1, log) →
      s1.exportButtonDisabled = true) := by
  have hthrow : ∀ e0, tryBlock s o = (Completion.throw e0 s, []) →
      (∀ s1 log, tryBlock s o = (Completion.normal s1, log) → exportInvariant s1) ∧
      (∀ e s1 log, tryBlock s o = (Completion.throw e s1, log) →
        s1.exportButtonDisabled = true) := by
    intro e0 h0
    rw [h0]
    constructor
    · intro s1 log h1
      injection h1 with h1 _
      cases h1
    · intro e s1 log h1
      injection h1 with h1 _
      injection h1 with _ h1
      subst h1
      exact hs
  have hpop : ∀ (data : List Record) (log0 : List Effect),
      tryBlock s o = (populateTable { s with searchResultsData := data } data, log0) →
      (∀ s1 log, tryBlock s o = (Completion.normal s1, log) → exportInvariant s1) ∧
      (∀ e s1 log, tryBlock s o = (Completion.throw e s1, log) →
        s1.exportButtonDisabled = true) := by
    intro data log0 h0
    have hp := populateTable_invariant { s with searchResultsData := data } hs
    rw [h0]
    constructor
    · intro s1 log h1
      injection h1 with h1 _
      exact hp.1 s1 h1
    · intro e s1 log h1
      injection h1 with h1 _
      exact hp.2 e s1 h1
  by_cases hf : o.failed = true
  · obtain ⟨e0, h0⟩ := tryBlock_failed s o hf
    exact hthrow e0 h0
  · cases o with
    | rejected => exact absurd rfl hf
    | resolved r =>
      have hok : r.ok = true := by
        cases hr : r.ok with
        | true => rfl
        | false => exact absurd (by simp [FetchOutcome.failed, hr]) hf
      cases hj : r.json with
      | none => exact absurd (by simp [FetchOutcome.failed, hj]) hf
      | some result =>
        cases harr : result.isArray with
        | false => exact hpop [] _ (tryBlock_not_array s r result hok hj harr)
        | true =>
          cases result <;> simp [isArray] at harr
          rename_i items
          have ht := tryBlock_array s r items hok hj
          cases hm : mapRecords items with
          | none =>
            rw [hm] at ht
            exact hthrow _ ht
          | some data =>
            rw [hm] at ht
            exact hpop data _ ht

theorem executeSearch_invariant (s : State) (o : FetchOutcome) (hs : exportInvariant s) :
    exportInvariant (executeSearch s o).1 := by
  by_cases hq : trim s.searchQueryValue = ""
  · simp only [executeSearch, hq, if_true]
    exact hs
  · have hinv := tryBlock_invariant (searching s) o rfl
    rcases executeSearch_cases s o hq with ⟨s1, log, ht, he⟩ | ⟨e, s1, log, ht, he⟩
    · rw [he]
      exact hinv.1 s1 log ht
    · rw [he]
      intro hf
      have := hinv.2 e s1 log ht
      simp [toggleLoading, catchBlock, this] at hf

theorem step_invariant (s : State) (op : Op) (hs : exportInvariant s) :
    exportInvariant (step s op) := by
  cases op with
  | search term outcome => exact executeSearch_invariant _ outcome hs
  | exportData =>
    have : (exportToExcel s).1 = s := by
      unfold exportToExcel
      split <;> rfl
    simp only [step, this]
    exact hs
  | tick => exact hs

theorem run_invariant (ops : List Op) : ∀ s : State, exportInvariant s →
    exportInvariant (run s ops) := by
  induction ops with
  | nil => intro s hs; exact hs
  | cons op rest ih =>
    intro s hs
    exact ih (step s op) (step_invariant s op hs)

theorem quotedAttrValue_safe (value rest : List Char) (h : value.all attrSafe = true) :
    quotedAttrValue (value ++ '"' :: rest) = some value := by
  induction value with
  | nil => simp [quotedAttrValue]
  | cons c tail ih =>
    simp only [List.all_cons, Bool.and_eq_true] at h
    have hc : c ≠ '"' := by
      intro hq
      rw [hq] at h
      exact absurd h.1 (by decide)
    simp [quotedAttrValue, hc, h.1, ih h.2]

theorem stripScheme_safe (w : String) (h : w.data.all attrSafe = true) :
    (stripScheme w).data.all attrSafe = true := by
  have hdrop : ∀ n, (w.data.drop n).all attrSafe = true := by
    intro n
    rw [List.all_eq_true] at h ⊢
    intro c hc
    exact h c (List.mem_of_mem_drop hc)
  unfold stripScheme
  split
  · exact hdrop 8
  · split
    · exact hdrop 7
    · exact h

theorem renderedHref_link (w : String) (h : w.data.all attrSafe = true) :
    renderedHref ("<a href=\"" ++ websiteHref w
      ++ "\" target=\"_blank\" rel=\"noopener noreferrer\">" ++ w ++ "</a>")
      = some ("http://" ++ stripScheme w) := by
  have hs : (websiteHref w).data.all attrSafe = true := by
    have h1 := stripScheme_safe w h
    have h2 : "http://".data.all attrSafe = true := by decide
    simp only [websiteHref, String.data_append, List.all_append, h1, h2, Bool.and_self]
  have hopen : "<a href=\"".data = ['<', 'a', ' ', 'h', 'r', 'e', 'f', '=', '"'] := rfl
  have hclose : "\" target=\"_blank\" rel=\"noopener noreferrer\">".data
      = '"' :: " target=\"_blank\" rel=\"noopener noreferrer\">".data := rfl
  simp only [renderedHref, String.data_append, hopen, hclose, List.append_assoc,
    List.cons_append, List.nil_append, List.isPrefixOf, beq_self_eq_true, Bool.and_self,
    Bool.true_and, if_true, List.drop_succ_cons, List.drop_zero]
  rw [quotedAttrValue_safe _ _ hs]
  rfl

theorem rowMarkup_eq_some (item : Record) (markup : String) (h : rowMarkup item = some markup) :
    ∃ nome telefone categorias endereco website,
      cellText item.Nome = some nome ∧ cellText item.Telefone = some telefone ∧
      cellText item.Categorias = some categorias ∧ cellText item.Endereco = some endereco ∧
      websiteCell item.Website = some website ∧
      markup = "\n                <td>" ++ nome ++ "</td>\n                <td>" ++ telefone
        ++ "</td>\n                <td>" ++ categorias ++ "</td>\n                <td>" ++ endereco
        ++ "</td>\n                <td>" ++ website ++ "</td>\n            " := by
  unfold rowMarkup at h
  cases h1 : cellText item.Nome <;> cases h2 : cellText item.Telefone <;>
    cases h3 : cellText item.Categorias <;> cases h4 : cellText item.Endereco <;>
    cases h5 : websiteCell item.Website <;> simp [h1, h2, h3, h4, h5] at h
  exact ⟨_, _, _, _, _, rfl, rfl, rfl, rfl, rfl, h.symm⟩

theorem populateTable_row (s s1 : State) (data : List Record) (i : Nat) (item : Record)
    (hp : populateTable s data = Completion.normal s1) (hi : data[i]? = some item) :
    ∃ row, s1.tableBody[i]? = some row ∧ rowMarkup item = some row.innerHTML := by
  have hd : data ≠ [] := by
    intro h0
    rw [h0] at hi
    simp at hi
  obtain ⟨rows, hc⟩ := populateTable_cases s data hd
  rcases hc with ⟨hn, hrows⟩ | ⟨e, ht⟩
  · rw [hn] at hp
    injection hp with hp
    subst hp
    have hget := congrArg (fun l => l[i]?) hrows
    simp only [List.getElem?_map, hi, Option.map_some'] at hget
    cases hr : rows[i]? with
    | none => simp [hr] at hget
    | some row =>
      refine ⟨row, rfl, ?_⟩
      simp only [hr, Option.map_some'] at hget
      exact (Option.some.inj hget).symm
  · rw [ht] at hp
    cases hp

theorem websiteCell_str (w : String) (hw : w ≠ "") :
    websiteCell (str w) =
      some ("<a href=\"" ++ websiteHref w
        ++ "\" target=\"_blank\" rel=\"noopener noreferrer\">" ++ w ++ "</a>") := by
  simp [websiteCell, truthy, hw]

theorem renderedHref_websiteCell (w : String) (hw : w ≠ "") (h : w.data.all attrSafe = true) :
    (websiteCell (str w)).bind renderedHref = some ("http://" ++ stripScheme w) := by
  rw [websiteCell_str w hw, Option.some_bind, renderedHref_link w h]

theorem append_ne_empty (p h : String) (hp : p ≠ "") : p ++ h ≠ "" := by
  intro e
  apply hp
  have hd := congrArg String.data e
  rw [String.data_append] at hd
  have hnil : p.data = [] := (List.append_eq_nil.1 hd).1
  exact String.ext hnil

/-! ## The claims -/

/-- C1. When the trimmed search text is empty, which is the case for every text that is empty
or made of white space only, `executeSearch` issues no request and has no other effect, sets the
status text to the input prompt, and leaves every other component of the state as it was: the
held records, the table body, the export control, the results section and the trigger control
with its label and spinner. -/
theorem C1_blank_query_only_prompts (s : State) (outcome : FetchOutcome)
    (h : trim s.searchQueryValue = "") :
    (∀ v : String, v.data.all isWhiteSpace = true → trim v = "") ∧
    requestsOf (executeSearch s outcome).2 = [] ∧
    executeSearch s outcome =
      ({ s with searchStatus := "Por favor, insira um termo de busca." }, []) := by
  have he : executeSearch s outcome =
      ({ s with searchStatus := "Por favor, insira um termo de busca." }, []) := by
    simp [executeSearch, h]
  exact ⟨trim_eq_empty_of_all, by rw [he]; rfl, he⟩

theorem C1_blank_query_only_prompts_witness :
    trim " \t\n " = "" ∧
    executeSearch { heldState with searchQueryValue := " \t\n " } FetchOutcome.rejected =
      ({ heldState with
         searchQueryValue := " \t\n "
         searchStatus := "Por favor, insira um termo de busca." }, []) :=
  ⟨by decide,
   (C1_blank_query_only_prompts { heldState with searchQueryValue := " \t\n " }
      FetchOutcome.rejected (by decide)).2.2⟩

/-- C2. When the trimmed search text `t` is not empty, one run of `executeSearch` issues exactly
one request, whatever its outcome: a POST to the webhook URL with the header
`Content-Type: application/json` and, as body, the JSON text of the object whose only member
has the key `termo_de_busca` and the value `t`, the trimmed text. -/
theorem C2_one_post_request (s : State) (outcome : FetchOutcome)
    (h : trim s.searchQueryValue ≠ "") :
    requestsOf (executeSearch s outcome).2 =
      [{ url := "https://webhook.ia-tess.com.br/webhook/scraping-google-maps"
         method := "POST"
         headers := [("Content-Type", "application/json")]
         body := "\x7b\"termo_de_busca\":" ++ quoteJSONString (trim s.searchQueryValue) ++ "\x7d" }] := by
  have hb : ∀ q : String, (searchRequest q).body =
      "\x7b\"termo_de_busca\":" ++ quoteJSONString q ++ "\x7d" := by
    intro q
    have hk : quoteJSONString "termo_de_busca" = "\"termo_de_busca\"" := by decide
    simp only [searchRequest, JSON_stringify_member, hk]
    rfl
  have hreq : searchRequest (trim s.searchQueryValue) =
      { url := "https://webhook.ia-tess.com.br/webhook/scraping-google-maps"
        method := "POST"
        headers := [("Content-Type", "application/json")]
        body := "\x7b\"termo_de_busca\":" ++ quoteJSONString (trim s.searchQueryValue) ++ "\x7d" } := by
    rw [← hb]
    rfl
  rcases executeSearch_cases s outcome h with ⟨s1, log, ht, he⟩ | ⟨e, s1, log, ht, he⟩
  · have hl := requestsOf_tryBlock (searching s) outcome
    rw [ht] at hl
    simp only at hl
    rw [he]
    simp only [requestsOf, hl, hreq]
  · have hl := requestsOf_tryBlock (searching s) outcome
    rw [ht] at hl
    simp only at hl
    have hcat : requestsOf (log ++ (catchBlock e s1).2) = [] := by
      have : ∀ l1 l2 : List Effect, requestsOf (l1 ++ l2) = requestsOf l1 ++ requestsOf l2 := by
        intro l1 l2
        induction l1 with
        | nil => rfl
        | cons a t ih => cases a <;> simp [requestsOf, ih]
      rw [this, hl]
      rfl
    rw [he]
    simp only [requestsOf, hcat, hreq]

theorem C2_one_post_request_witness :
    trim (freshState "  pizza \"SP\" ").searchQueryValue ≠ "" ∧
    requestsOf (executeSearch (freshState "  pizza \"SP\" ") FetchOutcome.rejected).2 =
      [{ url := "https://webhook.ia-tess.com.br/webhook/scraping-google-maps"
         method := "POST"
         headers := [("Content-Type", "application/json")]
         body := "\x7b\"termo_de_busca\":\"pizza \\\"SP\\\"\"\x7d" }] :=
  ⟨by decide,
   (C2_one_post_request (freshState "  pizza \"SP\" ") FetchOutcome.rejected (by decide)).trans
     rfl⟩

/-- C3, amended. For a successful response whose body is a sequence of `N` listing objects, the
held record sequence after `executeSearch` has `N` records in response order, the i-th derived
from the i-th listing: name, address, website, city, state, postal code, rating and review count
copied; categories the `subtypes` texts joined with a comma and a space, or the empty text when
`subtypes` is not a sequence; phone the first entry of the phone list when that list has an entry
and the entry is truthy (a non-empty text), and null otherwise. -/
theorem C3_records_from_listings (s : State) (r : Response) (items : List JSValue)
    (hq : trim s.searchQueryValue ≠ "") (hok : r.ok = true) (hj : r.json = some (arr items))
    (hl : ∀ item ∈ items, isListing item = true) :
    (executeSearch s (FetchOutcome.resolved r)).1.searchResultsData = items.map derivedRecord ∧
    (executeSearch s (FetchOutcome.resolved r)).1.searchResultsData.length = items.length := by
  have h : (executeSearch s (FetchOutcome.resolved r)).1.searchResultsData
      = items.map derivedRecord := by
    cases items with
    | nil =>
      rcases executeSearch_array s r [] [] hq hok hj rfl with ⟨s1, h1, he⟩ | ⟨e, s1, h1, _⟩
      · rw [populateTable_nil] at h1
        injection h1 with h1
        rw [he, ← h1]
        simp [toggleLoading]
      · rw [populateTable_nil] at h1
        cases h1
    | cons item rest =>
      obtain ⟨rows, _, he⟩ := executeSearch_listings s r (item :: rest) hq hok hj hl (by simp)
      rw [he]
      simp [toggleLoading]
  exact ⟨h, by rw [h, List.length_map]⟩

theorem C3_records_from_listings_witness :
    trim (freshState "oficinas").searchQueryValue ≠ "" ∧
    (∀ item ∈ [sampleListing, blankPhoneListing], isListing item = true) ∧
    (executeSearch (freshState "oficinas")
        (okResponse (arr [sampleListing, blankPhoneListing]))).1.searchResultsData
      = [sampleListing, blankPhoneListing].map derivedRecord ∧
    (executeSearch (freshState "oficinas")
        (okResponse (arr [sampleListing, blankPhoneListing]))).1.searchResultsData.length
      = [sampleListing, blankPhoneListing].length :=
  ⟨by decide, by decide,
   C3_records_from_listings (freshState "oficinas") _ [sampleListing, blankPhoneListing]
     (by decide) rfl rfl (by decide)⟩

/-- C3 as stated fails: for a listing whose phone list is the one empty text, the list exists and
is not empty, its first entry is the empty text, and the record held after the search has the
phone null, not that first entry. -/
theorem C3_counterexample :
    isListing blankPhoneListing = true ∧
    phoneNumbers blankPhoneListing = [str ""] ∧
    (statedRecord blankPhoneListing).Telefone = str "" ∧
    (executeSearch (freshState "padarias")
        (okResponse (arr [blankPhoneListing]))).1.searchResultsData.map Record.Telefone
      = [null] ∧
    (executeSearch (freshState "padarias")
        (okResponse (arr [blankPhoneListing]))).1.searchResultsData
      ≠ [blankPhoneListing].map statedRecord := by
  refine ⟨by decide, rfl, rfl, rfl, ?_⟩
  intro h
  have h1 := congrArg (List.map Record.Telefone) h
  have h2 : (executeSearch (freshState "padarias")
        (okResponse (arr [blankPhoneListing]))).1.searchResultsData.map Record.Telefone
      = [null] := rfl
  rw [h2] at h1
  have h3 : ([blankPhoneListing].map statedRecord).map Record.Telefone = [str ""] := rfl
  rw [h3] at h1
  injection h1 with h1
  cases h1

/-- C4. For `N ≥ 1` and a successful response whose body is a sequence of `N` listing objects,
after `executeSearch` the table body has exactly `N` rows, the renderings of the held records in
order, the status text is `Busca concluída! N resultados encontrados.`, the results section is
shown and the export control is enabled. -/
theorem C4_rows_status_export (s : State) (r : Response) (items : List JSValue)
    (hq : trim s.searchQueryValue ≠ "") (hok : r.ok = true) (hj : r.json = some (arr items))
    (hl : ∀ item ∈ items, isListing item = true) (hn : 1 ≤ items.length) :
    (executeSearch s (FetchOutcome.resolved r)).1.tableBody.length = items.length ∧
    tableShowsRecords (executeSearch s (FetchOutcome.resolved r)).1 ∧
    (executeSearch s (FetchOutcome.resolved r)).1.searchStatus =
      "Busca concluída! " ++ toString items.length ++ " resultados encontrados." ∧
    (executeSearch s (FetchOutcome.resolved r)).1.resultsSectionHidden = false ∧
    (executeSearch s (FetchOutcome.resolved r)).1.exportButtonDisabled = false := by
  have hne : items ≠ [] := by
    intro h0
    rw [h0] at hn
    cases hn
  obtain ⟨rows, hrows, he⟩ := executeSearch_listings s r items hq hok hj hl hne
  have hlen : rows.length = items.length := by
    have := congrArg List.length hrows
    simpa using this
  rw [he]
  refine ⟨?_, ?_, ?_, ?_, ?_⟩
  · simpa [toggleLoading] using hlen
  · simpa [tableShowsRecords, toggleLoading] using hrows
  · simp [toggleLoading]
  · simp [toggleLoading]
  · simp [toggleLoading]

theorem C4_rows_status_export_witness :
    trim (freshState " oficinas ").searchQueryValue ≠ "" ∧
    (executeSearch (freshState " oficinas ")
      (okResponse (arr [sampleListing, blankPhoneListing]))).1.tableBody.length = 2 ∧
    tableShowsRecords (executeSearch (freshState " oficinas ")
      (okResponse (arr [sampleListing, blankPhoneListing]))).1 ∧
    (executeSearch (freshState " oficinas ")
      (okResponse (arr [sampleListing, blankPhoneListing]))).1.searchStatus =
      "Busca concluída! 2 resultados encontrados." ∧
    (executeSearch (freshState " oficinas ")
      (okResponse (arr [sampleListing, blankPhoneListing]))).1.resultsSectionHidden = false ∧
    (executeSearch (freshState " oficinas ")
      (okResponse (arr [sampleListing, blankPhoneListing]))).1.exportButtonDisabled = false :=
  ⟨by decide,
   C4_rows_status_export (freshState " oficinas ") _ [sampleListing, blankPhoneListing]
     (by decide) rfl rfl (by decide) (by decide)⟩

/-- C5. From any prior state with a non-blank query, a successful response whose parsed body is
the empty sequence or is not a sequence leaves the held record sequence empty, the table body
with the single no-results row, the export control disabled and the results section hidden. -/
theorem C5_empty_or_non_sequence_body (s : State) (r : Response) (result : JSValue)
    (hq : trim s.searchQueryValue ≠ "") (hok : r.ok = true) (hj : r.json = some result)
    (hr : result = arr [] ∨ result.isArray = false) :
    (executeSearch s (FetchOutcome.resolved r)).1.searchResultsData = [] ∧
    (executeSearch s (FetchOutcome.resolved r)).1.tableBody = [noResultsRow] ∧
    (executeSearch s (FetchOutcome.resolved r)).1.exportButtonDisabled = true ∧
    (executeSearch s (FetchOutcome.resolved r)).1.resultsSectionHidden = true ∧
    (executeSearch s (FetchOutcome.resolved r)).1.searchStatus =
      "A busca foi concluída, mas nenhum dado foi retornado." := by
  have ht : ∃ log, tryBlock (searching s) (FetchOutcome.resolved r) =
      (populateTable { searching s with searchResultsData := [] } [], log) := by
    rcases hr with hr | hr
    · subst hr
      exact ⟨[], by rw [tryBlock_array _ _ _ hok hj]; rfl⟩
    · exact ⟨_, tryBlock_not_array _ _ _ hok hj hr⟩
  obtain ⟨log, ht⟩ := ht
  rw [populateTable_nil] at ht
  rcases executeSearch_cases s _ hq with ⟨s1, log1, ht1, he⟩ | ⟨e, s1, log1, ht1, he⟩
  · rw [ht] at ht1
    injection ht1 with h1 h2
    injection h1 with h1
    subst h1
    rw [he]
    simp [toggleLoading, searching]
  · rw [ht] at ht1
    injection ht1 with h1 h2
    cases h1

theorem C5_empty_or_non_sequence_body_witness :
    trim heldState.searchQueryValue ≠ "" ∧
    heldState.exportButtonDisabled = false ∧
    heldState.resultsSectionHidden = false ∧
    (executeSearch heldState (okResponse (obj [("error", str "quota")]))).1.searchResultsData = [] ∧
    (executeSearch heldState (okResponse (obj [("error", str "quota")]))).1.tableBody
      = [noResultsRow] ∧
    (executeSearch heldState (okResponse (obj [("error", str "quota")]))).1.exportButtonDisabled
      = true ∧
    (executeSearch heldState (okResponse (obj [("error", str "quota")]))).1.resultsSectionHidden
      = true ∧
    (executeSearch heldState (okResponse (obj [("error", str "quota")]))).1.searchStatus =
      "A busca foi concluída, mas nenhum dado foi retornado." :=
  ⟨by decide, by decide, by decide,
   C5_empty_or_non_sequence_body heldState _ (obj [("error", str "quota")]) (by decide) rfl rfl
     (Or.inr rfl)⟩

/-- C6, amended. For a non-empty stored website text `w`, `populateTable` writes the website cell
of the record's row as the unescaped link markup whose `href` is written as `http://` followed
by `w` without one leading `http://` or `https://`. When `w` holds no double quote, ampersand,
NUL or carriage return, the `href` read from that markup is that same text. So for a non-empty
host `h` free of those characters that starts with neither scheme, the stored values `h`,
`http://h` and `https://h` all render the `href` `http://h`. -/
theorem C6_website_link (s s1 : State) (data : List Record) (i : Nat) (item : Record)
    (w h : String)
    (hp : populateTable s data = Completion.normal s1) (hi : data[i]? = some item)
    (hw : item.Website = str w) (hne : w ≠ "") (hh : h ≠ "")
    (h1 : "http://".data.isPrefixOf h.data = false)
    (h2 : "https://".data.isPrefixOf h.data = false) :
    (∃ nome telefone categorias endereco,
      cellText item.Nome = some nome ∧ cellText item.Telefone = some telefone ∧
      cellText item.Categorias = some categorias ∧ cellText item.Endereco = some endereco ∧
      s1.tableBody[i]? = some
        ⟨"\n                <td>" ++ nome ++ "</td>\n                <td>" ++ telefone
          ++ "</td>\n                <td>" ++ categorias ++ "</td>\n                <td>"
          ++ endereco ++ "</td>\n                <td>"
          ++ ("<a href=\"" ++ ("http://" ++ stripScheme w)
            ++ "\" target=\"_blank\" rel=\"noopener noreferrer\">" ++ w ++ "</a>")
          ++ "</td>\n            "⟩) ∧
    stripScheme ("http://" ++ w) = w ∧
    stripScheme ("https://" ++ w) = w ∧
    stripScheme h = h ∧
    (w.data.all attrSafe = true →
      (websiteCell (str w)).bind renderedHref = some ("http://" ++ stripScheme w)) ∧
    (h.data.all attrSafe = true →
      (websiteCell (str h)).bind renderedHref = some ("http://" ++ h) ∧
      (websiteCell (str ("http://" ++ h))).bind renderedHref = some ("http://" ++ h) ∧
      (websiteCell (str ("https://" ++ h))).bind renderedHref = some ("http://" ++ h)) := by
  refine ⟨?_, stripScheme_http w, stripScheme_https w, stripScheme_of_bare h h1 h2,
    renderedHref_websiteCell w hne, ?_⟩
  · obtain ⟨row, hrow, hm⟩ := populateTable_row s s1 data i item hp hi
    obtain ⟨nome, telefone, categorias, endereco, website, c1, c2, c3, c4, c5, hmk⟩ :=
      rowMarkup_eq_some item row.innerHTML hm
    rw [hw, websiteCell_str w hne] at c5
    refine ⟨nome, telefone, categorias, endereco, c1, c2, c3, c4, ?_⟩
    rw [hrow]
    cases row with
    | mk markup =>
      simp only at hmk
      rw [hmk, ← Option.some.inj c5]
      rfl
  · intro hsafe
    have hs7 : ("http://" ++ h).data.all attrSafe = true := by
      have hp7 : "http://".data.all attrSafe = true := by decide
      simp only [String.data_append, List.all_append, hp7, hsafe, Bool.and_self]
    have hs8 : ("https://" ++ h).data.all attrSafe = true := by
      have hp8 : "https://".data.all attrSafe = true := by decide
      simp only [String.data_append, List.all_append, hp8, hsafe, Bool.and_self]
    refine ⟨?_, ?_, ?_⟩
    · rw [renderedHref_websiteCell h hh hsafe, stripScheme_of_bare h h1 h2]
    · rw [renderedHref_websiteCell _ (append_ne_empty _ h (by decide)) hs7, stripScheme_http]
    · rw [renderedHref_websiteCell _ (append_ne_empty _ h (by decide)) hs8, stripScheme_https]

theorem C6_website_link_witness :
    (∃ nome telefone categorias endereco,
      cellText (derivedRecord sampleListing).Nome = some nome ∧
      cellText (derivedRecord sampleListing).Telefone = some telefone ∧
      cellText (derivedRecord sampleListing).Categorias = some categorias ∧
      cellText (derivedRecord sampleListing).Endereco = some endereco ∧
      (populateTable (freshState "") [derivedRecord sampleListing]).state.tableBody[0]? = some
        ⟨"\n                <td>" ++ nome ++ "</td>\n                <td>" ++ telefone
          ++ "</td>\n                <td>" ++ categorias ++ "</td>\n                <td>"
          ++ endereco ++ "</td>\n                <td>"
          ++ ("<a href=\"" ++ ("http://" ++ stripScheme "https://example.com")
            ++ "\" target=\"_blank\" rel=\"noopener noreferrer\">" ++ "https://example.com"
            ++ "</a>")
          ++ "</td>\n            "⟩) ∧
    (websiteCell (str "https://example.com")).bind renderedHref = some "http://example.com" ∧
    (websiteCell (str "example.com")).bind renderedHref = some "http://example.com" ∧
    (websiteCell (str "http://example.com")).bind renderedHref = some "http://example.com" :=
  have t := C6_website_link (freshState "")
    (populateTable (freshState "") [derivedRecord sampleListing]).state
    [derivedRecord sampleListing] 0 (derivedRecord sampleListing) "https://example.com"
    "example.com" rfl rfl rfl (by decide) (by decide) (by decide) (by decide)
  ⟨t.1, t.2.2.2.2.1 (by decide), (t.2.2.2.2.2 (by decide)).1, (t.2.2.2.2.2 (by decide)).2.1⟩

set_option maxRecDepth 4000 in
/-- C6 as stated fails: for the stored website `a.com/?q="1"`, which is not empty,
`populateTable` writes the value unescaped into the quoted `href`, and the `href` read from the
row is `http://a.com/?q=`, not `http://` followed by the stored value. -/
theorem C6_counterexample :
    quotedWebsiteRecord.Website = str "a.com/?q=\"1\"" ∧
    (populateTable (freshState "") [quotedWebsiteRecord]).state.tableBody.map Row.innerHTML =
      ["\n                <td>Oficina Central</td>\n                <td>+55 17 3442-0000</td>\n                <td>Oficina, Auto elétrica</td>\n                <td>Rua A, 10</td>\n                <td><a href=\"http://a.com/?q=\"1\"\" target=\"_blank\" rel=\"noopener noreferrer\">a.com/?q=\"1\"</a></td>\n            "] ∧
    websiteCell (str "a.com/?q=\"1\"") =
      some "<a href=\"http://a.com/?q=\"1\"\" target=\"_blank\" rel=\"noopener noreferrer\">a.com/?q=\"1\"</a>" ∧
    (websiteCell (str "a.com/?q=\"1\"")).bind renderedHref = some "http://a.com/?q=" ∧
    "http://" ++ stripScheme "a.com/?q=\"1\"" = "http://a.com/?q=\"1\"" ∧
    (websiteCell (str "a.com/?q=\"1\"")).bind renderedHref
      ≠ some ("http://" ++ stripScheme "a.com/?q=\"1\"") := by
  refine ⟨rfl, rfl, by decide, by decide, by decide, by decide⟩

/-- C7. With no held record `exportToExcel` raises the notice and nothing else (no workbook, no
download). With `N ≥ 1` held records it writes exactly one file, `busca_leads.xlsx`, a workbook
whose only sheet is `Empresas`, built from `N` rows in record order, each with the ten columns
Nome da Empresa, Telefone, Categorias, Endereço, Cidade, Estado, CEP, Website, Rating and
Quantidade de Avaliações (company name, phone, categories, address, city, state, postal code,
website, rating, review count) filled from the corresponding fields of the record. The state is
unchanged in both cases. -/
theorem C7_export (s : State) :
    (s.searchResultsData = [] →
      exportToExcel s = (s, [Effect.alert "Não há dados para exportar."]) ∧
      downloadsOf (exportToExcel s).2 = []) ∧
    (s.searchResultsData ≠ [] →
      ∃ sheet : Worksheet,
        exportToExcel s = (s, [Effect.writeFile ⟨[("Empresas", sheet)]⟩ "busca_leads.xlsx"]) ∧
        alertsOf (exportToExcel s).2 = [] ∧
        sheet.rows.length = s.searchResultsData.length ∧
        sheet.rows = s.searchResultsData.map (fun item =>
          [("Nome da Empresa", item.Nome), ("Telefone", item.Telefone),
           ("Categorias", item.Categorias), ("Endereço", item.Endereco),
           ("Cidade", item.Cidade), ("Estado", item.Estado), ("CEP", item.CEP),
           ("Website", item.Website), ("Rating", item.Rating),
           ("Quantidade de Avaliações", item.QuantidadeDeAvaliacoes)])) := by
  constructor
  · intro h
    simp [exportToExcel, h, downloadsOf]
  · intro h
    have hl : s.searchResultsData.length ≠ 0 := by simpa using h
    refine ⟨⟨s.searchResultsData.map exportRow, [35, 20, 40, 45, 25, 10, 12, 30, 10, 25]⟩,
      ?_, ?_, ?_, ?_⟩
    · simp [exportToExcel, hl]
    · simp [exportToExcel, hl, alertsOf]
    · simp
    · rfl

theorem C7_export_witness :
    (exportToExcel (freshState "") =
        (freshState "", [Effect.alert "Não há dados para exportar."]) ∧
      downloadsOf (exportToExcel (freshState "")).2 = []) ∧
    (∃ sheet : Worksheet,
        exportToExcel heldState =
          (heldState, [Effect.writeFile ⟨[("Empresas", sheet)]⟩ "busca_leads.xlsx"]) ∧
        alertsOf (exportToExcel heldState).2 = [] ∧
        sheet.rows.length = heldState.searchResultsData.length ∧
        sheet.rows = heldState.searchResultsData.map (fun item =>
          [("Nome da Empresa", item.Nome), ("Telefone", item.Telefone),
           ("Categorias", item.Categorias), ("Endereço", item.Endereco),
           ("Cidade", item.Cidade), ("Estado", item.Estado), ("CEP", item.CEP),
           ("Website", item.Website), ("Rating", item.Rating),
           ("Quantidade de Avaliações", item.QuantidadeDeAvaliacoes)])) :=
  ⟨(C7_export (freshState "")).1 rfl,
   (C7_export heldState).2 (by
      intro h
      have h1 : heldState.searchResultsData.length = 1 := by decide
      rw [h] at h1
      cases h1)⟩

/-- C8. For a non-blank query and every outcome of the request, when `executeSearch` settles the
trigger control is enabled, its text label is shown and the spinner is hidden. -/
theorem C8_trigger_restored (s : State) (outcome : FetchOutcome)
    (hq : trim s.searchQueryValue ≠ "") :
    (executeSearch s outcome).1.searchButtonDisabled = false ∧
    (executeSearch s outcome).1.searchButtonTextHidden = false ∧
    (executeSearch s outcome).1.loadingSpinnerHidden = true := by
  rcases executeSearch_cases s outcome hq with ⟨s1, log, _, he⟩ | ⟨e, s1, log, _, he⟩ <;>
    rw [he] <;> simp [toggleLoading]

theorem C8_trigger_restored_witness :
    trim (freshState "padarias").searchQueryValue ≠ "" ∧
    (executeSearch (freshState "padarias")
      (FetchOutcome.resolved ⟨false, 500, "Internal Server Error", none⟩)).1.searchButtonDisabled
        = false ∧
    (executeSearch (freshState "padarias")
      (FetchOutcome.resolved ⟨false, 500, "Internal Server Error", none⟩)).1.searchButtonTextHidden
        = false ∧
    (executeSearch (freshState "padarias")
      (FetchOutcome.resolved ⟨false, 500, "Internal Server Error", none⟩)).1.loadingSpinnerHidden
        = true :=
  ⟨by decide, C8_trigger_restored (freshState "padarias") _ (by decide)⟩

/-- C9, as the code has it. From any prior state with a non-blank query, a search that fails
(rejected request, non-success status or unparsable body) leaves the held record sequence as it
was before the search; the table body is the single error row, the status text is the error
message, the export control is disabled and the results section is hidden. -/
theorem C9_failed_search_keeps_records (s : State) (outcome : FetchOutcome)
    (hq : trim s.searchQueryValue ≠ "") (hf : outcome.failed = true) :
    (executeSearch s outcome).1.searchResultsData = s.searchResultsData ∧
    (executeSearch s outcome).1.tableBody = [errorRow] ∧
    (executeSearch s outcome).1.searchStatus =
      "Ocorreu um erro ao buscar os dados. Tente novamente." ∧
    (executeSearch s outcome).1.exportButtonDisabled = true ∧
    (executeSearch s outcome).1.resultsSectionHidden = true := by
  obtain ⟨e0, ht⟩ := tryBlock_failed (searching s) outcome hf
  rcases executeSearch_cases s outcome hq with ⟨s1, log1, ht1, he⟩ | ⟨e, s1, log1, ht1, he⟩
  · rw [ht] at ht1
    injection ht1 with h1 h2
    cases h1
  · rw [ht] at ht1
    injection ht1 with h1 h2
    injection h1 with h0 h1
    subst h1
    rw [he]
    simp [toggleLoading, searching, catchBlock]

theorem C9_failed_search_keeps_records_witness :
    trim heldState.searchQueryValue ≠ "" ∧ FetchOutcome.rejected.failed = true ∧
    (executeSearch heldState FetchOutcome.rejected).1.searchResultsData
      = heldState.searchResultsData ∧
    (executeSearch heldState FetchOutcome.rejected).1.tableBody = [errorRow] ∧
    (executeSearch heldState FetchOutcome.rejected).1.searchStatus =
      "Ocorreu um erro ao buscar os dados. Tente novamente." ∧
    (executeSearch heldState FetchOutcome.rejected).1.exportButtonDisabled = true ∧
    (executeSearch heldState FetchOutcome.rejected).1.resultsSectionHidden = true :=
  ⟨by decide, rfl, C9_failed_search_keeps_records heldState FetchOutcome.rejected (by decide) rfl⟩

/-- C9 as stated fails: after a successful search that holds one record, a search whose request
is rejected settles with that record still held, and `exportToExcel` on the settled state raises
no notice and writes a file. -/
theorem C9_counterexample :
    trim heldState.searchQueryValue ≠ "" ∧
    FetchOutcome.rejected.failed = true ∧
    (executeSearch heldState FetchOutcome.rejected).1.searchResultsData.length = 1 ∧
    ¬ ((executeSearch heldState FetchOutcome.rejected).1.searchResultsData = []) ∧
    alertsOf (exportToExcel (executeSearch heldState FetchOutcome.rejected).1).2 = [] ∧
    (downloadsOf (exportToExcel (executeSearch heldState FetchOutcome.rejected).1).2).length = 1 := by
  refine ⟨by decide, rfl, by decide, ?_, by decide, by decide⟩
  intro h
  have h1 : (executeSearch heldState FetchOutcome.rejected).1.searchResultsData.length = 1 := by
    decide
  rw [h] at h1
  cases h1

/-- C10. Start from any page whose export control is disabled and run any finite sequence of
searches (any text, any outcome), export clicks and placeholder ticks, one after the other. If
the export control is then enabled, the held record sequence is not empty, the table body is the
rendering of that sequence (one row per record, in order), and an export writes the workbook
built from that same sequence. -/
theorem C10_export_enabled_invariant (s0 : State) (h0 : s0.exportButtonDisabled = true)
    (ops : List Op) (he : (run s0 ops).exportButtonDisabled = false) :
    (run s0 ops).searchResultsData ≠ [] ∧
    tableShowsRecords (run s0 ops) ∧
    (exportToExcel (run s0 ops)).2 =
      [Effect.writeFile
        ⟨[("Empresas", ⟨(run s0 ops).searchResultsData.map exportRow,
            [35, 20, 40, 45, 25, 10, 12, 30, 10, 25]⟩)]⟩ "busca_leads.xlsx"] := by
  have hinv : exportInvariant s0 := by
    intro hf
    rw [h0] at hf
    cases hf
  obtain ⟨hne, htable⟩ := run_invariant ops s0 hinv he
  refine ⟨hne, htable, ?_⟩
  have hl : (run s0 ops).searchResultsData.length ≠ 0 := by simpa using hne
  simp [exportToExcel, hl]

theorem C10_export_enabled_invariant_witness :
    (run (freshState "")
      [Op.tick, Op.search "oficinas" (okResponse (arr [sampleListing, blankPhoneListing])),
       Op.exportData, Op.tick, Op.search "   " FetchOutcome.rejected]).searchResultsData ≠ [] ∧
    tableShowsRecords (run (freshState "")
      [Op.tick, Op.search "oficinas" (okResponse (arr [sampleListing, blankPhoneListing])),
       Op.exportData, Op.tick, Op.search "   " FetchOutcome.rejected]) ∧
    (exportToExcel (run (freshState "")
      [Op.tick, Op.search "oficinas" (okResponse (arr [sampleListing, blankPhoneListing])),
       Op.exportData, Op.tick, Op.search "   " FetchOutcome.rejected])).2 =
      [Effect.writeFile
        ⟨[("Empresas", ⟨(run (freshState "")
            [Op.tick, Op.search "oficinas" (okResponse (arr [sampleListing, blankPhoneListing])),
             Op.exportData, Op.tick,
             Op.search "   " FetchOutcome.rejected]).searchResultsData.map exportRow,
            [35, 20, 40, 45, 25, 10, 12, 30, 10, 25]⟩)]⟩ "busca_leads.xlsx"] :=
  C10_export_enabled_invariant (freshState "") rfl
    [Op.tick, Op.search "oficinas" (okResponse (arr [sampleListing, blankPhoneListing])),
     Op.exportData, Op.tick, Op.search "   " FetchOutcome.rejected] (by decide)

end LeadSearch
